import Mathlib

/-
Verification of the Logger++ CSV analysis core (Analyze-LoggerPlusPlus.py).

The pipeline `analyze_burp_log(df, exclude_extensions, exclude_tools)` is
embedded shallowly: a pandas DataFrame becomes a `DataFrame` value holding
column-presence flags and a list of `Row`s (cell values are `Option String`,
`none` standing for NaN); Python exceptions escaping the function are the
`pyError` outcome, the `return None, None` paths are the `diagnostic`
outcome, and a successful run yields a `report`.

Library calls made by the source (pandas column filtering, `value_counts`,
`datetime.strptime`-style parsing via `pd.to_datetime(format=...)`,
`email.utils.parsedate_to_datetime`, `urllib.parse.urlparse(...).hostname`,
`html.escape`, `json.dumps`) are modelled at the value level over ASCII
strings, following the documented behaviour of those functions on the input
domain the program feeds them.
-/

deriving instance DecidableEq for Except

namespace LoggerPP

/-- One row of the Logger++ CSV as the analysis sees it.  Only the four
columns read by `analyze_burp_log` are carried; a `none` cell is a pandas
NaN. -/
structure Row where
  url : Option String
  tool : Option String
  reqTime : Option String
  respHeaders : Option String
deriving DecidableEq

/-- A pandas DataFrame: which of the four columns exist at all (accessing a
missing column raises `KeyError`), plus the rows. -/
structure DataFrame where
  hasURL : Bool
  hasTool : Bool
  hasTime : Bool
  hasHeaders : Bool
  rows : List Row
deriving DecidableEq

/- ## String helpers modelling Python `str` methods (ASCII domain) -/

/-- Python `str.lower()` (ASCII letters; the URLs and extensions the claims
exercise are ASCII). -/
def pyLower (s : String) : String :=
  ⟨s.data.map Char.toLower⟩

/-- Python `str.upper()` (ASCII letters). -/
def pyUpper (s : String) : String :=
  ⟨s.data.map Char.toUpper⟩

/-- Python `s.endswith(suf)`: plain suffix test. -/
def pyEndsWith (s suf : String) : Bool :=
  decide (s.data.drop (s.data.length - suf.data.length) = suf.data)

/-- Python whitespace for `str.strip` / `str.split` / `\s` (ASCII range). -/
def isWs (c : Char) : Bool :=
  c = ' ' || c = '\t' || c = '\n' || c = '\r' || c.toNat = 11 || c.toNat = 12

/-- Python `str.strip()` on a character list. -/
def pyStrip (cs : List Char) : List Char :=
  ((cs.dropWhile isWs).reverse.dropWhile isWs).reverse

/-- `s.split(sep)` for a single-character separator (empty pieces kept,
as in Python). -/
def splitOnChar (sep : Char) (cs : List Char) : List (List Char) :=
  cs.foldr
    (fun c acc =>
      match acc with
      | [] => [[c]]
      | g :: gs => if c = sep then [] :: (g :: gs) else (c :: g) :: gs)
    [[]]

/-- `s.split()` with no argument: split on whitespace runs, dropping empty
pieces. -/
def splitWsRuns (cs : List Char) : List (List Char) :=
  (cs.foldr
    (fun c acc =>
      if isWs c then [] :: acc
      else
        match acc with
        | [] => [[c]]
        | g :: gs => (c :: g) :: gs)
    []).filter (fun g => !g.isEmpty)

/- ## Filter stage (source lines 69-77) -/

/-- Extension filter predicate, source line 70-72:
`df['Request.URL'].str.lower().str.endswith(tuple(f".{ext.lower()}" ...), na=False)`.
A NaN URL gives `False` (`na=False`), so the record is kept. -/
def extMatches (exts : List String) : Option String → Bool
  | none => false
  | some u => exts.any (fun e => pyEndsWith (pyLower u) ("." ++ pyLower e))

/-- Tool filter predicate, source line 76: `df['Request.Tool'].isin(exclude_tools)`.
Exact, case-sensitive string equality; a NaN tool is in no list of strings. -/
def toolMatches (tools : List String) : Option String → Bool
  | none => false
  | some t => tools.contains t

/-- The two filters as applied in sequence by source lines 70-77.  Each is
guarded by Python truthiness (`if exclude_extensions:`), so an empty list
skips that filter entirely. -/
def filterRows (exts tools : List String) (rows : List Row) : List Row :=
  let r1 := if exts.isEmpty then rows else rows.filter (fun r => !extMatches exts r.url)
  if tools.isEmpty then r1 else r1.filter (fun r => !toolMatches tools r.tool)

theorem extMatches_nil (o : Option String) : extMatches [] o = false := by
  cases o <;> rfl

theorem toolMatches_nil (o : Option String) : toolMatches [] o = false := by
  cases o <;> rfl

theorem filterTwice {α : Type} (p q : α → Bool) (l : List α) :
    (l.filter p).filter q = l.filter (fun a => p a && q a) := by
  induction l with
  | nil => rfl
  | cons x xs ih =>
    by_cases hp : p x <;> by_cases hq : q x <;>
      simp [List.filter_cons, hp, hq, ih]

/-- Composition of the two filter passes into one predicate: a record is kept
iff it matches no excluded extension and no excluded tool. -/
theorem filterRows_eq_filter (exts tools : List String) (rows : List Row) :
    filterRows exts tools rows =
      rows.filter (fun r => !extMatches exts r.url && !toolMatches tools r.tool) := by
  unfold filterRows
  by_cases hE : exts.isEmpty <;> by_cases hT : tools.isEmpty
  · rw [List.isEmpty_iff] at hE hT
    subst hE; subst hT
    simp [extMatches_nil, toolMatches_nil]
  · rw [List.isEmpty_iff] at hE
    subst hE
    simp [hT, extMatches_nil]
  · rw [List.isEmpty_iff] at hT
    subst hT
    simp [hE, toolMatches_nil]
  · simp only [hE, hT, if_neg, Bool.not_eq_true, if_false, filterTwice]

/- ## Datetime values -/

/-- A Python `datetime` (wall-clock fields plus an optional UTC offset in
minutes; `none` is a naive datetime). -/
structure PyDateTime where
  year : Nat
  month : Nat
  day : Nat
  hour : Nat
  minute : Nat
  second : Nat
  tzOffsetMinutes : Option Int
deriving DecidableEq

/-- `pandas .dt.tz_localize(None)`: drop the offset, keeping the wall-clock
fields unchanged. -/
def stripTz (d : PyDateTime) : PyDateTime :=
  ⟨d.year, d.month, d.day, d.hour, d.minute, d.second, none⟩

def isLeap (y : Nat) : Bool :=
  (y % 4 = 0 && y % 100 ≠ 0) || y % 400 = 0

def daysInMonth (y m : Nat) : Nat :=
  if m = 2 then (if isLeap y then 29 else 28)
  else if m = 4 || m = 6 || m = 9 || m = 11 then 30
  else 31

/-- The range validation performed by the `datetime` constructor; out-of-range
fields raise `ValueError`, which every caller in the pipeline turns into an
unresolved (`None`/`NaT`) timestamp. -/
def mkValidDT (y mo d h mi s : Nat) (tz : Option Int) : Option PyDateTime :=
  if 1 ≤ y ∧ y ≤ 9999 ∧ 1 ≤ mo ∧ mo ≤ 12 ∧ 1 ≤ d ∧ d ≤ daysInMonth y mo
      ∧ h ≤ 23 ∧ mi ≤ 59 ∧ s ≤ 59 then
    some ⟨y, mo, d, h, mi, s, tz⟩
  else none

/- ## Number-token helpers -/

def digitsVal (cs : List Char) : Option Nat :=
  if cs.isEmpty then none
  else if cs.all Char.isDigit then
    some (cs.foldl (fun a c => a * 10 + (c.toNat - 48)) 0)
  else none

/-- A 1- or 2-digit number field, as `strptime` `%m`, `%d`, `%I`, `%M`, `%S`
accept. -/
def num2 (cs : List Char) : Option Nat :=
  if cs.length = 1 || cs.length = 2 then digitsVal cs else none

/-- A 4-digit year, as `strptime` `%Y` accepts. -/
def num4 (cs : List Char) : Option Nat :=
  if cs.length = 4 then digitsVal cs else none

/-- Python `int(tok)` for an optionally signed digit string. -/
def parseIntTok (cs : List Char) : Option Int :=
  match cs with
  | '+' :: rest => (digitsVal rest).map Int.ofNat
  | '-' :: rest => (digitsVal rest).map (fun n => -(Int.ofNat n))
  | _ => (digitsVal cs).map Int.ofNat

/- ## Primary timestamp strategy (source line 91) -/

def parseAmPm (cs : List Char) : Option Bool :=
  let l := cs.map Char.toLower
  if l = ['a', 'm'] then some false
  else if l = ['p', 'm'] then some true
  else none

/-- `pd.to_datetime(value, format='%m/%d/%Y %I:%M:%S %p', errors='coerce')`
applied to one cell: strict parse of the fixed 12-hour format, `none` (NaT)
on any failure, NaN in → NaT out. -/
def parseRequestTime : Option String → Option PyDateTime
  | none => none
  | some s =>
    match splitOnChar ' ' s.data with
    | [dpart, tpart, appart] =>
      match splitOnChar '/' dpart, splitOnChar ':' tpart with
      | [ms, ds, ys], [hs, mins, ss] =>
        match num2 ms, num2 ds, num4 ys, num2 hs, num2 mins, num2 ss, parseAmPm appart with
        | some mo, some d, some y, some h, some mi, some sec, some pm =>
          if 1 ≤ h ∧ h ≤ 12 then
            mkValidDT y mo d (h % 12 + (if pm then 12 else 0)) mi sec none
          else none
        | _, _, _, _, _, _, _ => none
      | _, _ => none
    | _ => none

/- ## Fallback timestamp strategy (source lines 45-59, 95-100) -/

def dayNames : List String :=
  ["mon", "tue", "wed", "thu", "fri", "sat", "sun"]

def monthTable : List (String × Nat) :=
  [("jan", 1), ("feb", 2), ("mar", 3), ("apr", 4), ("may", 5), ("jun", 6),
   ("jul", 7), ("aug", 8), ("sep", 9), ("oct", 10), ("nov", 11), ("dec", 12),
   ("january", 1), ("february", 2), ("march", 3), ("april", 4), ("june", 6),
   ("july", 7), ("august", 8), ("september", 9), ("october", 10),
   ("november", 11), ("december", 12)]

def monthNum (cs : List Char) : Option Nat :=
  monthTable.lookup ⟨cs.map Char.toLower⟩

/-- The `email.utils` timezone-name table, values in `±HHMM` form. -/
def tzTable : List (String × Int) :=
  [("UT", 0), ("UTC", 0), ("GMT", 0), ("Z", 0),
   ("AST", -400), ("ADT", -300), ("EST", -500), ("EDT", -400),
   ("CST", -600), ("CDT", -500), ("MST", -700), ("MDT", -600),
   ("PST", -800), ("PDT", -700)]

/-- Zone token to UTC offset in minutes; `none` means an unknown zone, which
`parsedate_to_datetime` turns into a naive datetime. -/
def parseTz (cs : List Char) : Option Int :=
  let raw : Option Int :=
    match tzTable.lookup ⟨cs.map Char.toUpper⟩ with
    | some v => some v
    | none => parseIntTok cs
  match raw with
  | none => none
  | some v =>
    if v < 0 then some (-((-v / 100) * 60 + (-v) % 100))
    else some ((v / 100) * 60 + v % 100)

def stripTrailingComma (cs : List Char) : List Char :=
  match cs.getLast? with
  | some c => if c = ',' then cs.dropLast else cs
  | none => cs

/-- Drop a leading day-of-week token (`Mon,` or a bare day name), as
`email.utils._parsedate_tz` does. -/
def dropDayName (toks : List (List Char)) : List (List Char) :=
  match toks with
  | [] => []
  | t :: rest =>
    if (t.getLast? = some ',') || dayNames.contains ⟨t.map Char.toLower⟩ then rest
    else ((t.reverse.takeWhile (fun c => c ≠ ',')).reverse) :: rest

/-- `email.utils.parsedate_to_datetime` for standard RFC 5322 dates
(`[Www, ] DD Mon YYYY HH:MM[:SS] [zone]`) as emitted in HTTP `Date:` headers.
Unknown zones and missing zones give a naive datetime; a numeric or named
zone gives an aware one.  Obsolete permutations of the grammar (RFC 850
dashes, swapped fields, a zone glued to the time) are outside the scope of
the claims and are not modelled. -/
def parsedate_to_datetime (cs : List Char) : Option PyDateTime :=
  match dropDayName (splitWsRuns cs) with
  | dd :: mon :: yy :: tm :: rest =>
    let tzTok : List Char := match rest with | [] => [] | t :: _ => t
    let tparts := splitOnChar ':' (stripTrailingComma tm)
    let hms : Option (List Char × List Char × List Char) :=
      match tparts with
      | [a, b] => some (a, b, ['0'])
      | [a, b, c] => some (a, b, c)
      | _ => none
    match monthNum mon, digitsVal (stripTrailingComma dd), digitsVal yy, hms with
    | some mo, some d, some y0, some (hs, ms, ss) =>
      let y := if y0 < 100 then (if y0 > 68 then y0 + 1900 else y0 + 2000) else y0
      match digitsVal hs, digitsVal ms, digitsVal ss with
      | some h, some mi, some sec => mkValidDT y mo d h mi sec (parseTz tzTok)
      | _, _, _ => none
    | _, _, _, _ => none
  | _ => none

/-- Does a header line start with `Date:`, case-insensitively (the compiled
regex `^Date:` with `re.IGNORECASE | re.MULTILINE`)? -/
def startsWithDateCI (l : List Char) : Bool :=
  decide ((l.take 5).map Char.toLower = ['d', 'a', 't', 'e', ':'])

def findDateLine : List (List Char) → Option (List Char)
  | [] => none
  | l :: ls => if startsWithDateCI l then some (l.drop 5) else findDateLine ls

/-- `extract_date_from_headers` (source lines 45-59): a non-string cell gives
`None`; otherwise the first line beginning with `Date:` (case-insensitive) is
located, its remainder stripped of surrounding whitespace and handed to
`parsedate_to_datetime`; any parse failure gives `None`. -/
def extract_date_from_headers : Option String → Option PyDateTime
  | none => none
  | some s =>
    match findDateLine (splitOnChar '\n' s.data) with
    | none => none
    | some rest => parsedate_to_datetime (pyStrip rest)

/- ## Timestamp resolution (source lines 89-103) -/

/-- Source lines 90-93: the `Time` column after the primary strategy.  With a
`Request.Time` column each cell is parsed with the fixed format; without one
the whole column is NaT. -/
def primaryTimes (df : DataFrame) (rows : List Row) : List (Option PyDateTime) :=
  if df.hasTime then rows.map (fun r => parseRequestTime r.reqTime)
  else rows.map (fun _ => none)

/-- Do the successfully extracted datetimes share one timezone status — all
naive, or all aware with the same UTC offset?  This is the condition under
which pandas infers a datetime64 column for the `apply` result of source line
98, so that line 100's `.dt.tz_localize(None)` succeeds; a mixture leaves an
object-dtype column whose `.dt` accessor raises `AttributeError`. -/
def uniformTz : List PyDateTime → Bool
  | [] => true
  | d :: rest => rest.all (fun x => decide (x.tzOffsetMinutes = d.tzOffsetMinutes))

/-- How time resolution fails: `diag` is the printed `return None, None` of
source line 102-103; `exc` is an exception escaping the function (the
`AttributeError` of line 100). -/
inductive ResolveErr where
  | diag (msg : String)
  | exc (msg : String)
deriving DecidableEq

/-- Source lines 95-103: if every primary cell is null the fallback runs —
provided a `Response.Headers` column exists (else the terminal diagnostic of
line 102) — extracting a date from each header block (line 98).  When at
least one extraction succeeded (`notna().any()`, line 99), line 100 strips
the timezones with `.dt.tz_localize(None)`: this keeps each wall-clock time
when the extracted datetimes are timezone-uniform (the column is
datetime64), and raises `AttributeError` when they mix offsets or mix
aware and naive values (the column stays object-dtype). -/
def resolveTimes (df : DataFrame) (rows : List Row) :
    Except ResolveErr (List (Option PyDateTime)) :=
  let primary := primaryTimes df rows
  if primary.all (fun t => t.isNone) then
    if df.hasHeaders then
      let fb := rows.map (fun r => extract_date_from_headers r.respHeaders)
      if fb.any (fun t => t.isSome) then
        if uniformTz (fb.filterMap id) then .ok (fb.map (Option.map stripTz))
        else .error (.exc ("AttributeError: Can only use .dt accessor with datetimelike values"))
      else .ok fb
    else
      .error (.diag ("Error: Response.Headers column not found. Cannot determine request times."))
  else .ok primary

/-- The per-record Event Times of the active strategy at the value level: the
primary column when any primary cell resolved, otherwise the fallback
extractions (timezone-stripped when any succeeded).  A record "has a
resolvable Event Time" precisely when its entry here is `some`; the list is
defined independently of the dtype error line 100 can raise on a
timezone-mixed column (`resolveTimes` carries that error path). -/
def fallbackTimes (rows : List Row) : List (Option PyDateTime) :=
  let fb := rows.map (fun r => extract_date_from_headers r.respHeaders)
  if fb.any (fun t => t.isSome) then fb.map (Option.map stripTz) else fb

def resolvedTimes (df : DataFrame) (rows : List Row) : List (Option PyDateTime) :=
  let primary := primaryTimes df rows
  if primary.all (fun t => t.isNone) then
    if df.hasHeaders then fallbackTimes rows else primary
  else primary

/-- The rows surviving `df.dropna(subset=['Time'])` (source line 105), paired
with their resolved Event Time.  When `resolveTimes` returns `.ok ts` this is
exactly the `dropna` of `ts`; on the `diag` error no record has a time, and
on the `exc` error the times exist as values even though the program crashes
before `dropna`. -/
def resolvedRecords (df : DataFrame) (rows : List Row) : List (Row × PyDateTime) :=
  (rows.zip (resolvedTimes df rows)).filterMap (fun p => p.2.map (fun d => (p.1, d)))

/- ## Counting (pandas `value_counts().to_dict()` and manual defaultdicts) -/

/-- Increment the count of `a` in an association list, inserting it at count 1
when absent. -/
def bumpCount {α : Type} [DecidableEq α] : List (α × Nat) → α → List (α × Nat)
  | [], a => [(a, 1)]
  | (k, c) :: rest, a =>
    if k = a then (k, c + 1) :: rest else (k, c) :: bumpCount rest a

/-- The value → occurrence-count mapping of a list.  `value_counts().to_dict()`
presents the same mapping (its dict is ordered by descending count, an order
none of the claims consume). -/
def countsOf {α : Type} [DecidableEq α] : List α → List (α × Nat)
  | [] => []
  | x :: xs => bumpCount (countsOf xs) x

def sumVals {α : Type} (m : List (α × Nat)) : Nat :=
  (m.map Prod.snd).sum

def lookupCount {α : Type} [DecidableEq α] : List (α × Nat) → α → Nat
  | [], _ => 0
  | (k, c) :: rest, a => if k = a then c else lookupCount rest a

/- ## Hostname extraction (source line 115, `urlparse(x).hostname`) -/

def schemeChar (c : Char) : Bool :=
  c.isAlphanum || c = '+' || c = '-' || c = '.'

/-- Strip a `scheme:` head as `urllib.parse.urlsplit` does: a nonempty run of
scheme characters starting with a letter, up to the first `:`. -/
def stripScheme (cs : List Char) : List Char :=
  let pre := cs.takeWhile (fun c => c ≠ ':')
  if pre.length < cs.length then
    match pre with
    | [] => cs
    | c0 :: rest =>
      if c0.isAlpha && rest.all schemeChar then cs.drop (pre.length + 1) else cs
  else cs

/-- `urlparse(u).hostname`: `None` when the URL has no `//`-netloc; otherwise
the host part of the netloc (after the last `@`, before a port `:` or inside
`[...]`), lowercased, with `''` mapped to `None`.  Mismatched brackets in the
netloc raise `ValueError` (`Invalid IPv6 URL`), modelled as `.error`.  The
`\t`/`\r`/`\n` removal urllib performs first is included. -/
def pyUrlHostname (u : String) : Except String (Option String) :=
  let cs := u.data.filter (fun c => !(c = '\t' || c = '\r' || c = '\n'))
  match stripScheme cs with
  | '/' :: '/' :: tl =>
    let netloc := tl.takeWhile (fun c => !(c = '/' || c = '?' || c = '#'))
    if (netloc.contains '[' && !netloc.contains ']')
        || (netloc.contains ']' && !netloc.contains '[') then
      .error ("ValueError: Invalid IPv6 URL")
    else
      let hostinfo := (netloc.reverse.takeWhile (fun c => c ≠ '@')).reverse
      let hostname :=
        if hostinfo.contains '[' then
          ((hostinfo.dropWhile (fun c => c ≠ '[')).drop 1).takeWhile (fun c => c ≠ ']')
        else hostinfo.takeWhile (fun c => c ≠ ':')
      if hostname.isEmpty then .ok none
      else .ok (some ⟨hostname.map Char.toLower⟩)
  | _ => .ok none

/-- Source line 115: the `Target` column.  A NaN URL fails the `isinstance`
check and gives a null target; a string URL goes through `urlparse`. -/
def rowTarget (r : Row) : Except String (Option String) :=
  match r.url with
  | some u => pyUrlHostname u
  | none => .ok none

def computeTargets (rs : List (Row × PyDateTime)) : Except String (List (Option String)) :=
  rs.mapM (fun p => rowTarget p.1)

/- ## Aggregation (source lines 111-146) -/

/-- Source line 117: `df['Request.URL'].value_counts().to_dict()` — NaN URLs
are dropped (`value_counts` defaults to `dropna=True`). -/
def endpoint_counts_of (rs : List (Row × PyDateTime)) : List (String × Nat) :=
  countsOf ((rs.map (fun p => p.1.url)).filterMap id)

/-- Source line 118: `df['Target'].value_counts().to_dict()` — null targets
are dropped by `value_counts`. -/
def target_counts_of (targets : List (Option String)) : List (String × Nat) :=
  countsOf (targets.filterMap id)

/-- Source line 131: `df['Request.Tool'].value_counts().to_dict()`. -/
def tool_summary_of (rs : List (Row × PyDateTime)) : List (String × Nat) :=
  countsOf ((rs.map (fun p => p.1.tool)).filterMap id)

/-- One value of the `daily_summary` defaultdict (source line 125): a total
and a per-tool breakdown (keyed by the raw tool cell, NaN included). -/
structure DailyBucket where
  total : Nat
  tools : List (Option String × Nat)
deriving DecidableEq

def bumpBucket (b : DailyBucket) (t : Option String) : DailyBucket :=
  ⟨b.total + 1, bumpCount b.tools t⟩

def bumpDaily : List (String × DailyBucket) → String → Option String →
    List (String × DailyBucket)
  | [], d, t => [(d, bumpBucket ⟨0, []⟩ t)]
  | (k, b) :: rest, d, t =>
    if k = d then (k, bumpBucket b t) :: rest else (k, b) :: bumpDaily rest d t

def digitChar (n : Nat) : Char := Char.ofNat (48 + n % 10)

def pad2 (n : Nat) : List Char := [digitChar (n / 10), digitChar n]

def pad4 (n : Nat) : List Char :=
  [digitChar (n / 1000), digitChar (n / 100), digitChar (n / 10), digitChar n]

/-- Source line 127: `row['Date'].strftime('%Y-%m-%d')`. -/
def dateKey (d : PyDateTime) : String :=
  ⟨pad4 d.year ++ ('-' :: pad2 d.month) ++ ('-' :: pad2 d.day)⟩

/-- Source lines 125-129: the per-calendar-day buckets, each row bumping its
day's total and its tool's count within that day. -/
def dailySummary : List (Row × PyDateTime) → List (String × DailyBucket)
  | [] => []
  | p :: ps => bumpDaily (dailySummary ps) (dateKey p.2) p.1.tool

def sumTotals (m : List (String × DailyBucket)) : Nat :=
  (m.map (fun e => e.2.total)).sum

/-- Source line 134: `total_requests = len(df)` over the filtered,
time-resolved set. -/
def total_requests (rs : List (Row × PyDateTime)) : Nat := rs.length

/-- Injective rank for comparing naive datetimes (all resolved Event Times
are naive by the time `min`/`max` run at source line 112). -/
def dtRank (d : PyDateTime) : Nat :=
  ((((d.year * 13 + d.month) * 32 + d.day) * 25 + d.hour) * 61 + d.minute) * 61 + d.second

def dtMin (a b : PyDateTime) : PyDateTime := if dtRank b < dtRank a then b else a

def dtMax (a b : PyDateTime) : PyDateTime := if dtRank a < dtRank b then b else a

/-- Source line 112: `df['Time'].min(), df['Time'].max()`. -/
def dateRange : List PyDateTime → Option (PyDateTime × PyDateTime)
  | [] => none
  | d :: ds => some (ds.foldl (fun p x => (dtMin p.1 x, dtMax p.2 x)) (d, d))

/-- The render-ready structure handed back to the caller (the
`analysis_data` dict of source lines 282-289 plus the date range of line
112).  The remaining productivity metrics (average per day as a formatted
float, peak day) and the nested `tool_endpoint_counts` are presentation
values no claim consumes and are not modelled. -/
structure ReportModel where
  date_range : Option (PyDateTime × PyDateTime)
  endpoint_counts : List (String × Nat)
  target_counts : List (String × Nat)
  tool_summary : List (String × Nat)
  daily_summary : List (String × DailyBucket)
  total_requests : Nat
deriving DecidableEq

def buildReport (rs : List (Row × PyDateTime)) (targets : List (Option String)) :
    ReportModel :=
  ⟨dateRange (rs.map Prod.snd), endpoint_counts_of rs, target_counts_of targets,
   tool_summary_of rs, dailySummary rs, total_requests rs⟩

/- ## The pipeline -/

/-- Outcome of one call to `analyze_burp_log`: a `return None, None` after a
printed message (`diagnostic`), an uncaught Python exception (`pyError`), or
a completed report. -/
inductive AnalyzeResult where
  | diagnostic (msg : String)
  | pyError (msg : String)
  | report (m : ReportModel)
deriving DecidableEq

def isDiagnostic : AnalyzeResult → Bool
  | .diagnostic _ => true
  | _ => false

def isReport : AnalyzeResult → Bool
  | .report _ => true
  | _ => false

/-- Source lines 105-146 on the already-resolved record set: the emptiness
check of line 107, then target derivation (line 115, which can raise) and the
aggregations. -/
def analyzeResolved (rs : List (Row × PyDateTime)) : AnalyzeResult :=
  if rs.isEmpty then
    .diagnostic ("Error: No valid timestamps could be determined from Request.Time or Response.Headers.")
  else
    match computeTargets rs with
    | .error msg => .pyError msg
    | .ok targets => .report (buildReport rs targets)

/-- Source lines 79-103 on the filtered rows: post-filter emptiness (line
79), the required-column check (lines 83-87, reached only now), and time
resolution. -/
def analyzeFiltered (df : DataFrame) (rows : List Row) : AnalyzeResult :=
  if rows.isEmpty then
    .diagnostic ("All data was filtered out. No analysis to perform.")
  else if !df.hasURL then
    .diagnostic ("Error: Required column Request.URL not found. The CSV might be malformed or not from Logger++.")
  else if !df.hasTool then
    .diagnostic ("Error: Required column Request.Tool not found. The CSV might be malformed or not from Logger++.")
  else
    match resolveTimes df rows with
    | .error (.diag msg) => .diagnostic msg
    | .error (.exc msg) => .pyError msg
    | .ok _ => analyzeResolved (resolvedRecords df rows)

/-- `analyze_burp_log` (source lines 61-291).  The initial emptiness check of
line 65 runs first; then the filters of lines 70-77, whose column accesses
`df['Request.URL']` / `df['Request.Tool']` raise `KeyError` when the column is
missing and the corresponding exclusion list is non-empty (Python truthiness
guards each filter); only afterwards the required-column check and the rest
of the pipeline. -/
def analyze_burp_log (df : DataFrame) (exclude_extensions exclude_tools : List String) :
    AnalyzeResult :=
  if df.rows.isEmpty then
    .diagnostic ("The initial data is empty. No analysis to perform.")
  else if !exclude_extensions.isEmpty && !df.hasURL then
    .pyError ("KeyError: Request.URL")
  else if !exclude_tools.isEmpty && !df.hasTool then
    .pyError ("KeyError: Request.Tool")
  else
    analyzeFiltered df (filterRows exclude_extensions exclude_tools df.rows)

/- ## Result projections (used by concrete counterexample statements) -/

def reportEndpointSum : AnalyzeResult → Nat
  | .report m => sumVals m.endpoint_counts
  | _ => 0

def reportTotal : AnalyzeResult → Nat
  | .report m => m.total_requests
  | _ => 0

def reportTargetCounts : AnalyzeResult → List (String × Nat)
  | .report m => m.target_counts
  | _ => []

/- ## HTML report text insertion (source lines 170-171, 216, 246) -/

/-- Python `html.escape(s)` (quote=True): `&`, `<`, `>`, `"`, `'` become
entities; everything else passes through. -/
def html_escape (s : String) : String :=
  ⟨(s.data.map (fun c =>
      if c = '&' then ("&amp;").data
      else if c = '<' then ("&lt;").data
      else if c = '>' then ("&gt;").data
      else if c.toNat = 34 then ("&quot;").data
      else if c.toNat = 39 then ("&#x27;").data
      else [c])).flatten⟩

def hexDigit (n : Nat) : Char :=
  if n % 16 < 10 then Char.ofNat (48 + n % 16) else Char.ofNat (87 + n % 16)

/-- The JSON string escaping `json.dumps` applies with its defaults: only the
quote, the backslash, and control characters are escaped; `<`, `>`, `/` pass
through verbatim (non-ASCII input does not occur in the claims' domain). -/
def jsonEscapeChar (c : Char) : List Char :=
  if c.toNat = 34 then ['\\', '"']
  else if c.toNat = 92 then ['\\', '\\']
  else if c.toNat = 8 then ['\\', 'b']
  else if c.toNat = 9 then ['\\', 't']
  else if c.toNat = 10 then ['\\', 'n']
  else if c.toNat = 12 then ['\\', 'f']
  else if c.toNat = 13 then ['\\', 'r']
  else if c.toNat < 32 then
    ['\\', 'u', '0', '0', hexDigit (c.toNat / 16), hexDigit c.toNat]
  else [c]

def jsonString (s : String) : List Char :=
  '"' :: (s.data.map jsonEscapeChar).flatten ++ ['"']

def natDigits (n : Nat) : List Char :=
  (Nat.toDigits 10 n)

/-- `json.dumps(list(tool_summary.items()))`: a JSON array of
`[name, count]` pairs with the default `', '` separator. -/
def json_dumps_pairs (items : List (String × Nat)) : String :=
  ⟨'[' :: (List.intercalate [',', ' ']
      (items.map (fun p => '[' :: jsonString p.1 ++ (',' :: ' ' :: natDigits p.2) ++ [']'])))
    ++ [']']⟩

/-- Source line 246: the inline `<script>` line
`const toolData = {json.dumps(list(tool_summary.items()))};` — the tool names
reach the HTML document through `json.dumps`, not `html.escape`. -/
def toolDataScript (tool_summary : List (String × Nat)) : String :=
  ("const toolData = ") ++ json_dumps_pairs tool_summary ++ (";")

/-- Source line 216: the tool-usage table cell, which does escape the tool
name. -/
def toolTableCell (tool : String) (count : Nat) : String :=
  ("<tr><td>") ++ html_escape tool ++ ("</td><td>") ++ (⟨natDigits count⟩ : String) ++ ("</td></tr>")

/-- Substring test over character lists. -/
def hasSubstr : List Char → List Char → Bool
  | [], pat => pat.isEmpty
  | c :: tl, pat => pat.isPrefixOf (c :: tl) || hasSubstr tl pat

/- ## Lemmas about the counting primitives -/

theorem sumVals_bumpCount {α : Type} [DecidableEq α] (m : List (α × Nat)) (a : α) :
    sumVals (bumpCount m a) = sumVals m + 1 := by
  induction m with
  | nil => rfl
  | cons p rest ih =>
    by_cases h : p.1 = a
    · simp [bumpCount, h, sumVals]
      omega
    · simp [bumpCount, h, sumVals] at *
      omega

theorem sumVals_countsOf {α : Type} [DecidableEq α] (xs : List α) :
    sumVals (countsOf xs) = xs.length := by
  induction xs with
  | nil => rfl
  | cons x xs ih => rw [countsOf, sumVals_bumpCount, ih, List.length_cons]

theorem lookupCount_bumpCount_self {α : Type} [DecidableEq α]
    (m : List (α × Nat)) (a : α) :
    lookupCount (bumpCount m a) a = lookupCount m a + 1 := by
  induction m with
  | nil => simp [bumpCount, lookupCount]
  | cons p rest ih =>
    by_cases h : p.1 = a
    · simp [bumpCount, h, lookupCount]
    · simp [bumpCount, h, lookupCount, ih]

theorem lookupCount_bumpCount_ne {α : Type} [DecidableEq α]
    (m : List (α × Nat)) (a b : α) (h : b ≠ a) :
    lookupCount (bumpCount m a) b = lookupCount m b := by
  induction m with
  | nil =>
    simp only [bumpCount, lookupCount]
    rw [if_neg (Ne.symm h)]
  | cons p rest ih =>
    obtain ⟨k, c⟩ := p
    by_cases hp : k = a
    · have hkb : ¬k = b := fun e => h (e ▸ hp)
      simp only [bumpCount, if_pos hp, lookupCount, if_neg hkb]
    · simp only [bumpCount, if_neg hp, lookupCount]
      by_cases hkb : k = b
      · rw [if_pos hkb, if_pos hkb]
      · rw [if_neg hkb, if_neg hkb, ih]

theorem lookupCount_countsOf {α : Type} [DecidableEq α] (xs : List α) (a : α) :
    lookupCount (countsOf xs) a = xs.count a := by
  induction xs with
  | nil => rfl
  | cons x xs ih =>
    by_cases h : x = a
    · subst h
      rw [countsOf, lookupCount_bumpCount_self, ih, List.count_cons_self]
    · rw [countsOf, lookupCount_bumpCount_ne _ _ _ (Ne.symm h), ih,
        List.count_cons_of_ne (Ne.symm h)]

theorem count_filterMap_id {α : Type} [DecidableEq α]
    (l : List (Option α)) (a : α) :
    (l.filterMap id).count a = l.count (some a) := by
  induction l with
  | nil => rfl
  | cons x xs ih =>
    cases x with
    | none =>
      rw [List.filterMap_cons]
      simp only [id]
      rw [ih, List.count_cons_of_ne (by simp)]
    | some b =>
      rw [List.filterMap_cons]
      simp only [id]
      by_cases h : b = a
      · subst h
        rw [List.count_cons_self, ih, List.count_cons_self]
      · have h1 : a ≠ b := Ne.symm h
        rw [List.count_cons_of_ne h1, ih,
          List.count_cons_of_ne (fun e => h1 (Option.some.inj e))]

theorem length_filterMap_id_of_all {α : Type} (l : List (Option α))
    (h : ∀ x ∈ l, x.isSome = true) :
    (l.filterMap id).length = l.length := by
  induction l with
  | nil => rfl
  | cons x xs ih =>
    cases x with
    | none => exact absurd (h none (List.mem_cons_self _ _)) (by simp)
    | some b =>
      rw [List.filterMap_cons]
      simp only [id]
      rw [List.length_cons, List.length_cons,
        ih (fun y hy => h y (List.mem_cons_of_mem _ hy))]

/- ## Lemmas about the daily buckets -/

theorem bucketOk_bumpBucket (b : DailyBucket) (t : Option String)
    (h : b.total = sumVals b.tools) :
    (bumpBucket b t).total = sumVals (bumpBucket b t).tools := by
  simp [bumpBucket, sumVals_bumpCount, h]

theorem bucketsOk_bumpDaily (m : List (String × DailyBucket)) (d : String)
    (t : Option String)
    (h : ∀ e ∈ m, (Prod.snd e).total = sumVals (Prod.snd e).tools) :
    ∀ e ∈ bumpDaily m d t, (Prod.snd e).total = sumVals (Prod.snd e).tools := by
  induction m with
  | nil =>
    intro e he
    simp only [bumpDaily, List.mem_singleton] at he
    subst he
    exact bucketOk_bumpBucket ⟨0, []⟩ t rfl
  | cons p rest ih =>
    intro e he
    by_cases hk : p.1 = d
    · simp only [bumpDaily, hk, if_pos] at he
      rcases List.mem_cons.mp he with h1 | h2
      · subst h1
        exact bucketOk_bumpBucket p.2 t (h p (List.mem_cons_self _ _))
      · exact h e (List.mem_cons_of_mem _ h2)
    · simp only [bumpDaily, hk, if_neg, not_false_iff] at he
      rcases List.mem_cons.mp he with h1 | h2
      · subst h1
        exact h p (List.mem_cons_self _ _)
      · exact ih (fun x hx => h x (List.mem_cons_of_mem _ hx)) e h2

theorem sumTotals_bumpDaily (m : List (String × DailyBucket)) (d : String)
    (t : Option String) :
    sumTotals (bumpDaily m d t) = sumTotals m + 1 := by
  induction m with
  | nil => rfl
  | cons p rest ih =>
    by_cases hk : p.1 = d
    · simp [bumpDaily, hk, sumTotals, bumpBucket]
      omega
    · simp [bumpDaily, hk, sumTotals] at *
      omega

theorem bucketsOk_dailySummary (rs : List (Row × PyDateTime)) :
    ∀ e ∈ dailySummary rs, (Prod.snd e).total = sumVals (Prod.snd e).tools := by
  induction rs with
  | nil => intro e he; cases he
  | cons p ps ih => exact bucketsOk_bumpDaily _ _ _ ih

theorem sumTotals_dailySummary (rs : List (Row × PyDateTime)) :
    sumTotals (dailySummary rs) = rs.length := by
  induction rs with
  | nil => rfl
  | cons p ps ih => rw [dailySummary, sumTotals_bumpDaily, ih, List.length_cons]

/- ## Concrete fixtures used by the closed theorems -/

/-- A row whose only populated required field is the tool. -/
def rowToolOnly : Row := ⟨none, some ("Proxy"), none, none⟩

/-- A record set whose `Request.URL` column is missing entirely. -/
def dfNoURL : DataFrame := ⟨false, true, true, true, [rowToolOnly]⟩

/-- The spec's extension-filter example record. -/
def jsRow : Row := ⟨some ("http://x/a.JS?x=1"), some ("Proxy"), none, none⟩

def scannerRow : Row := ⟨some ("http://x/a"), some ("Scanner"), none, none⟩

def lowerScannerRow : Row := ⟨some ("http://x/b"), some ("scanner"), none, none⟩

/-- One record whose URL cell is NaN but whose time parses. -/
def rowNoUrl : Row := ⟨none, some ("Repeater"), some ("01/02/2026 10:00:00 AM"), none⟩

def dfC5 : DataFrame := ⟨true, true, true, true, [rowNoUrl]⟩

def rowHostX : Row :=
  ⟨some ("http://x/a"), some ("Proxy"), some ("01/02/2026 10:00:00 AM"), none⟩

/-- A record whose URL string has no `//`-netloc, so `urlparse` yields a null
hostname. -/
def rowNoHost : Row :=
  ⟨some ("nohost"), some ("Proxy"), some ("01/03/2026 10:00:00 AM"), none⟩

def dfC7 : DataFrame := ⟨true, true, true, true, [rowHostX, rowNoHost]⟩

/- ## The claims -/

/-- Claim C1 is violated by the code: with both exclusion lists empty a record
set lacking the `Request.URL` column is indeed rejected with the terminal
required-column diagnostic, but with a non-empty extension exclusion list the
filter stage (source line 72) reads `df['Request.URL']` before the
required-column check of lines 83-87 ever runs, and the call raises
`KeyError` instead of returning a diagnostic. -/
theorem c1_required_column_keyerror :
    analyze_burp_log dfNoURL [] []
        = .diagnostic ("Error: Required column Request.URL not found. The CSV might be malformed or not from Logger++.")
      ∧ analyze_burp_log dfNoURL [("js" : String)] [] = .pyError ("KeyError: Request.URL") := by
  constructor
  · rfl
  · rfl

/-- Claim C3: the extension filter drops a record exactly when the lowercased
URL ends in `"." ++` the lowercased extension for some excluded extension —
suffix match only, so the spec's example record
`http://x/a.JS?x=1` survives the `["js"]` filter because of its trailing
query string. -/
theorem c3_extension_filter (exts : List String) (r : Row) (u : String)
    (hr : r.url = some u) :
    (extMatches exts r.url = true
        ↔ ∃ e ∈ exts, pyEndsWith (pyLower u) ("." ++ pyLower e) = true)
      ∧ extMatches [("js" : String)] jsRow.url = false
      ∧ filterRows [("js" : String)] [] [jsRow] = [jsRow] := by
  refine ⟨?_, by decide, by decide⟩
  rw [hr]
  simp only [extMatches]
  exact List.any_eq_true

/-- Claim C4: the tool filter is exact, case-sensitive membership — the
`["Scanner"]` list removes the record whose tool is exactly `"Scanner"` and
keeps the `"scanner"` one — and the two filters compose so that a record is
kept iff it matches no excluded extension and no excluded tool (dropped iff
it matches any of either). -/
theorem c4_tool_filter_and_composition (tools : List String) (r : Row) (t : String)
    (hr : r.tool = some t) :
    (filterRows [] tools [r] = [] ↔ t ∈ tools)
      ∧ filterRows [] [("Scanner" : String)] [scannerRow, lowerScannerRow]
          = [lowerScannerRow]
      ∧ (∀ (exts tools2 : List String) (rows : List Row),
          filterRows exts tools2 rows
            = rows.filter (fun x => !extMatches exts x.url && !toolMatches tools2 x.tool)) := by
  refine ⟨?_, by decide, filterRows_eq_filter⟩
  rw [filterRows_eq_filter]
  simp only [extMatches_nil, Bool.not_false, Bool.true_and]
  rw [List.filter_cons, List.filter_nil]
  simp only [toolMatches, hr]
  by_cases h : tools.contains t
  · rw [List.elem_iff] at h
    simp [h, List.elem_iff]
  · rw [List.elem_iff] at h
    simp [h, List.elem_iff]

/-- Claim C5 fails as stated: a record with a NaN `Request.URL` cell survives
filtering and time resolution, but `value_counts()` (dropna) omits it from
the endpoint counts, so the counts sum to 0 while the set has size 1. -/
theorem c5_counterexample :
    isReport (analyze_burp_log dfC5 [] []) = true
      ∧ reportEndpointSum (analyze_burp_log dfC5 [] []) = 0
      ∧ reportTotal (analyze_burp_log dfC5 [] []) = 1 := by
  decide

/-- Claim C5 amended: the endpoint counts sum to the number of records in the
filtered, time-resolved set whose URL is present; when every record carries a
URL (the claim's premise made explicit) the sum equals the set size. -/
theorem c5_endpoint_sum_nonnull (rs : List (Row × PyDateTime))
    (h : ∀ p ∈ rs, (Prod.fst p).url.isSome = true) :
    sumVals (endpoint_counts_of rs) = total_requests rs := by
  unfold endpoint_counts_of total_requests
  rw [sumVals_countsOf, length_filterMap_id_of_all, List.length_map]
  intro x hx
  obtain ⟨p, hp, rfl⟩ := List.mem_map.mp hx
  exact h p hp

def rs5 : List (Row × PyDateTime) := [(rowHostX, ⟨2026, 1, 2, 10, 0, 0, none⟩)]

/-- Claim C5 witness: the amended sum identity at a concrete one-record set. -/
theorem c5_endpoint_sum_nonnull_witness :
    sumVals (endpoint_counts_of rs5) = total_requests rs5 :=
  c5_endpoint_sum_nonnull rs5 (by decide)

theorem filterMap_zip_ne_nil {α β : Type} (rows : List α) (ts : List (Option β))
    (h : rows.length = ts.length) (x : Option β) (hx : x ∈ ts) (hs : x.isSome = true) :
    (rows.zip ts).filterMap (fun p => p.2.map (fun d => (p.1, d))) ≠ [] := by
  induction rows generalizing ts with
  | nil =>
    cases ts with
    | nil => cases hx
    | cons t ts2 => simp at h
  | cons r rest ih =>
    cases ts with
    | nil => cases hx
    | cons t ts2 =>
      cases t with
      | some d => simp [List.zip_cons_cons, List.filterMap_cons]
      | none =>
        have hx2 : x ∈ ts2 := by
          rcases List.mem_cons.mp hx with h1 | h2
          · rw [h1] at hs
            simp at hs
          · exact h2
        have hlen : rest.length = ts2.length := by
          simpa using h
        simp only [List.zip_cons_cons, List.filterMap_cons, Option.map_none']
        exact ih ts2 hlen hx2

/-- When time resolution hits the line-100 `AttributeError` (the `exc` error),
at least one fallback extraction succeeded, so the set does contain records
with resolvable Event Times. -/
theorem resolveTimes_exc_resolvedRecords_ne (df : DataFrame) (rows : List Row)
    (msg : String) (h : resolveTimes df rows = .error (.exc msg)) :
    resolvedRecords df rows ≠ [] := by
  simp only [resolveTimes] at h
  by_cases h1 : (primaryTimes df rows).all (fun t => t.isNone)
  · rw [if_pos h1] at h
    by_cases h2 : df.hasHeaders
    · rw [if_pos h2] at h
      by_cases h3 : ((rows.map (fun r => extract_date_from_headers r.respHeaders)).any
          (fun t => t.isSome))
      · obtain ⟨x, hx, hs⟩ := List.any_eq_true.mp h3
        unfold resolvedRecords resolvedTimes
        rw [if_pos h1, if_pos h2]
        unfold fallbackTimes
        rw [if_pos h3]
        refine filterMap_zip_ne_nil rows _ (by simp) (Option.map stripTz x)
          (List.mem_map_of_mem _ hx) ?_
        cases x with
        | none => simp at hs
        | some d => rfl
      · rw [if_neg h3] at h
        exact Except.noConfusion h
    · rw [if_neg h2] at h
      injection h with h2x
      exact ResolveErr.noConfusion h2x
  · rw [if_neg h1] at h
    exact Except.noConfusion h

/-- `analyze_burp_log` reaches the filtered-stage analysis whenever the data
is non-empty and both required columns exist (so the filters cannot raise). -/
theorem analyze_eq_filtered (df : DataFrame) (exts tools : List String)
    (hU : df.hasURL = true) (hT : df.hasTool = true) (hne : df.rows ≠ []) :
    analyze_burp_log df exts tools = analyzeFiltered df (filterRows exts tools df.rows) := by
  unfold analyze_burp_log
  rw [if_neg (by simp [List.isEmpty_iff]; exact hne),
    if_neg (by simp [hU]), if_neg (by simp [hT])]

/-- Claim C6: with the required columns present, each terminal condition —
empty record set, filtering removed everything, no record with a resolvable
Event Time under the active strategy (including the missing-header-column
case) — makes the call return a terminal diagnostic: no report, no
exception. -/
theorem c6_terminal_diagnostics (df : DataFrame) (exts tools : List String)
    (hU : df.hasURL = true) (hT : df.hasTool = true) :
    (df.rows = [] → isDiagnostic (analyze_burp_log df exts tools) = true)
      ∧ (filterRows exts tools df.rows = [] →
          isDiagnostic (analyze_burp_log df exts tools) = true)
      ∧ (resolvedRecords df (filterRows exts tools df.rows) = [] →
          isDiagnostic (analyze_burp_log df exts tools) = true) := by
  refine ⟨?_, ?_, ?_⟩
  · intro h
    unfold analyze_burp_log
    rw [if_pos (by simp [h])]
    rfl
  · intro hFil
    by_cases hrows : df.rows = []
    · unfold analyze_burp_log
      rw [if_pos (by simp [hrows])]
      rfl
    · rw [analyze_eq_filtered df exts tools hU hT hrows, hFil]
      rfl
  · intro hRes
    by_cases hrows : df.rows = []
    · unfold analyze_burp_log
      rw [if_pos (by simp [hrows])]
      rfl
    · rw [analyze_eq_filtered df exts tools hU hT hrows]
      by_cases hemp : filterRows exts tools df.rows = []
      · rw [hemp]
        rfl
      · unfold analyzeFiltered
        rw [if_neg (by simp [List.isEmpty_iff]; exact hemp),
          if_neg (by simp [hU]), if_neg (by simp [hT])]
        cases hRT : resolveTimes df (filterRows exts tools df.rows) with
        | error e =>
          cases e with
          | diag msg => rfl
          | exc msg => exact absurd hRes (resolveTimes_exc_resolvedRecords_ne df _ msg hRT)
        | ok ts =>
          rw [hRes]
          rfl

def dfEmptyRows : DataFrame := ⟨true, true, true, true, []⟩

/-- Claim C6 witness: the empty record set gives a diagnostic. -/
theorem c6_terminal_diagnostics_witness :
    isDiagnostic (analyze_burp_log dfEmptyRows [] []) = true :=
  (c6_terminal_diagnostics dfEmptyRows [] [] rfl rfl).1 rfl

/-- Claim C7 fails as stated: of the two surviving records one has a null
target (`nohost` has no hostname), yet the target counts contain only the
`"x"` key — `value_counts()` drops nulls rather than grouping them as their
own key. -/
theorem c7_counterexample :
    reportTargetCounts (analyze_burp_log dfC7 [] []) = [(("x" : String), 1)]
      ∧ reportTotal (analyze_burp_log dfC7 [] []) = 2 := by
  decide

/-- Claim C7 amended: target counts map each hostname to its occurrence
count; records whose URL yields no hostname produce a null target that is
omitted from the counts (dropped by `value_counts`), not grouped under a
separate key. -/
theorem c7_target_counts (ts : List (Option String)) :
    (∀ h : String, lookupCount (target_counts_of ts) h = ts.count (some h))
      ∧ sumVals (target_counts_of ts) = (ts.filterMap id).length := by
  constructor
  · intro h
    unfold target_counts_of
    rw [lookupCount_countsOf, count_filterMap_id]
  · unfold target_counts_of
    rw [sumVals_countsOf]

def injectedTool : String := "</script><script>alert(1)</script>"

/-- Claim C9 is violated by the code: the tool names inserted into the inline
script block of the report (source line 246) pass through `json.dumps`, which
leaves `<`, `>` and `/` unescaped, so a tool named
`</script><script>alert(1)</script>` carries a literal `</script>` into the
document and closes the script element — while `html.escape`, used for the
table cells, would have neutralised it. -/
theorem c9_script_injection :
    hasSubstr (toolDataScript [(injectedTool, 1)]).data (("</script>").data) = true
      ∧ hasSubstr (html_escape injectedTool).data (("</script>").data) = false := by
  decide

/-- Claim C10: every daily bucket's total equals the sum of its per-tool
counts, and the bucket totals over the whole summary sum to the total request
count of the productivity metrics. -/
theorem c10_daily_bucket_invariant (rs : List (Row × PyDateTime)) :
    (∀ e ∈ dailySummary rs, (Prod.snd e).total = sumVals (Prod.snd e).tools)
      ∧ sumTotals (dailySummary rs) = total_requests rs :=
  ⟨bucketsOk_dailySummary rs, sumTotals_dailySummary rs⟩

def rs10 : List (Row × PyDateTime) := [(rowNoHost, ⟨2026, 1, 3, 10, 0, 0, none⟩)]

def e10 : String × DailyBucket := (("2026-01-03"), ⟨1, [(some ("Proxy"), 1)]⟩)

/-- Claim C10 witness: the bucket invariant at a concrete one-record set. -/
theorem c10_daily_bucket_invariant_witness :
    (Prod.snd e10).total = sumVals (Prod.snd e10).tools
      ∧ sumTotals (dailySummary rs10) = total_requests rs10 :=
  ⟨(c10_daily_bucket_invariant rs10).1 e10 (by decide), (c10_daily_bucket_invariant rs10).2⟩

/-- Claim C3 witness: the iff instantiated at the spec's example record. -/
theorem c3_extension_filter_witness :
    extMatches [("js" : String)] jsRow.url = true
      ↔ ∃ e ∈ [("js" : String)],
          pyEndsWith (pyLower ("http://x/a.JS?x=1")) ("." ++ pyLower e) = true :=
  (c3_extension_filter [("js" : String)] jsRow ("http://x/a.JS?x=1") rfl).1

/-- Claim C4 witness: the exact-match iff drops the `"Scanner"` record. -/
theorem c4_tool_filter_and_composition_witness :
    filterRows [] [("Scanner" : String)] [scannerRow] = [] :=
  ((c4_tool_filter_and_composition [("Scanner" : String)] scannerRow ("Scanner") rfl).1).mpr
    (by decide)

/-- Claim C8: filtering is idempotent — running the filter stage again with
the same exclusion lists leaves an already-filtered set unchanged. -/
theorem c8_filter_idempotent (exts tools : List String) (rows : List Row) :
    filterRows exts tools (filterRows exts tools rows) = filterRows exts tools rows := by
  rw [filterRows_eq_filter, filterRows_eq_filter, filterTwice]
  exact List.filter_congr (fun x _ => Bool.and_self _)

end LoggerPP
